import Mathlib

/-!
Shallow embedding of the curlpp wrapper library (src/curl++.h, src/curl++.cpp)
and verification of its resource-lifetime and formatting contracts.

Modelling conventions:
- native pointers (CURL *, char *) are modelled as Nat, with 0 standing for
  nullptr;
- C++ std::string contents are modelled as List Char (abbreviated Str);
- results of calls into the underlying libcurl library (curl_easy_setopt
  return codes, curl_easy_duphandle results, curl_easy_strerror text, data
  blocks passed to write callbacks) are oracle parameters of the embedded
  functions, since libcurl itself is outside the repository;
- a C++ function that can throw is embedded as a function into Except Str,
  where the Str carried by the error is the what() text of the thrown
  curl::error object.
-/

set_option autoImplicit false

namespace curl

/-- Character-list model of a C++ std::string value. -/
abbrev Str := List Char

/-- Convert a Lean string literal to its character-list model. -/
def str (s : String) : Str := s.data

/-- CURLE_OK, the success return code of libcurl calls. -/
def CURLE_OK : Nat := 0

/-- Decimal rendering of a Nat, modelling what %d prints in snprintf
for the (non-negative) __LINE__ values that occur here. -/
def natChars (n : Nat) : Str := (Nat.repr n).data

/-! ### curl::error (src/curl++.cpp lines 261-304)

The class stores a heap buffer buf_ and returns it from what().  We embed
each of the three constructor overloads as a function computing the final
contents of buf_ (as a character list, the terminating NUL left implicit).
-/

/-- error::error(const char * msg): buf_ = strdup(msg). -/
def error_what_plain (msg : Str) : Str := msg

/-- The fully formatted text of the format string
"File: %s - Line: %d\n%s\n" applied to (file, line, msg): what the
error(msg, file, line) constructor sizes its buffer for. -/
def fmtFileLine (msg file : Str) (line : Nat) : Str :=
  str "File: " ++ file ++ str " - Line: " ++ natChars line ++ str "\n"
    ++ msg ++ str "\n"

/-- error::error(const char * msg, const char * file, int line):
size = snprintf(nullptr, 0, fmt, file, line, msg) is the full formatted
length; buf_ = malloc(size+1); then snprintf(buf_, size, ...) writes at
most size-1 characters plus the NUL, so buf_ holds the formatted text
with its final character dropped. -/
def error_what_file_line (msg file : Str) (line : Nat) : Str :=
  (fmtFileLine msg file line).dropLast

/-- The fully formatted text of the format string
"File: %s - Line: %d\n%s\n----------\n%s\n" applied to
(file, line, msg, errstr), where errstr = curl_easy_strerror(code). -/
def fmtFileLineCode (msg errstr file : Str) (line : Nat) : Str :=
  str "File: " ++ file ++ str " - Line: " ++ natChars line ++ str "\n"
    ++ msg ++ str "\n----------\n" ++ errstr ++ str "\n"

/-- error::error(const char * msg, CURLcode code, const char * file,
int line): same snprintf(buf_, size, ...) pattern as the file/line form,
so buf_ holds the formatted text with its final character dropped.
The curl_easy_strerror(code) text is the oracle parameter errstr. -/
def error_what_code (msg errstr file : Str) (line : Nat) : Str :=
  (fmtFileLineCode msg errstr file line).dropLast

/-! ### curl::easy (src/curl++.h lines 52-121, src/curl++.cpp lines 50-214) -/

/-- The easy wrapper object: its one data member is CURL * handle_. -/
structure easy where
  handle_ : Nat
  deriving DecidableEq, Repr

/-- The what() text of ERROR("Failed to aquire CURL easy handle") thrown by
both easy constructors, expanded from the ERROR macro at (file, line). -/
def acquisitionErrorWhat (file : Str) (line : Nat) : Str :=
  error_what_file_line (str "Failed to aquire CURL easy handle") file line

/-- easy::easy(CURL * handle): stores handle_ = handle and throws the
acquisition error if it is null. -/
def easy.fromHandle (handle : Nat) (file : Str) (line : Nat) :
    Except Str easy :=
  if handle = 0 then Except.error (acquisitionErrorWhat file line)
  else Except.ok ⟨handle⟩

/-- easy(easy&& other) = default (src/curl++.h line 64): the compiler-made
move constructor copies the raw pointer member handle_ and leaves the source
object unchanged.  Result: (the new object, the source after the move). -/
def easy.moveConstruct (source : easy) : easy × easy :=
  (⟨source.handle_⟩, source)

/-- easy& operator = (easy&&) = default (src/curl++.h line 66): the
compiler-made move assignment copies handle_ from source to target and
leaves the source unchanged.  Result: (the target after assignment, the
source after the move). -/
def easy.moveAssign (_target source : easy) : easy × easy :=
  (⟨source.handle_⟩, source)

/-- easy::~easy calls curl_easy_cleanup(handle_); libcurl frees the handle
when it is non-null and does nothing on nullptr.  Result: the list of native
handles released by destroying this object. -/
def easy.destructorFrees (e : easy) : List Nat :=
  if e.handle_ = 0 then [] else [e.handle_]

/-- easy::set (both non-template overloads, src/curl++.cpp lines 69-77, and
both templates, src/curl++.h lines 195-204, share this body via the CHECK
expansion): code is the CURLcode returned by curl_easy_setopt, stmt is the
stringized call text #x, errstr is curl_easy_strerror(code).  On CURLE_OK
the wrapper returns with handle_ untouched; otherwise it throws
error(#x, code, __FILE__, __LINE__). -/
def easy.set (e : easy) (code : Nat) (stmt errstr file : Str) (line : Nat) :
    Except Str easy :=
  if code = CURLE_OK then Except.ok e
  else Except.error (error_what_code stmt errstr file line)

/-- easy::add_cookie(const char *) (and the std::string overload, which
forwards c_str()): CHECK(curl_easy_setopt(handle_, CURLOPT_COOKIELIST,
cookie)), throwing on any non-CURLE_OK code. -/
def easy.add_cookie (_e : easy) (_cookie : Str) (code : Nat)
    (errstr file : Str) (line : Nat) : Except Str Unit :=
  if code = CURLE_OK then Except.ok ()
  else Except.error (error_what_code
    (str "curl_easy_setopt(handle_, CURLOPT_COOKIELIST, cookie)")
    errstr file line)

/-- Loop body of easy::add_cookie(const std::map<...>&) (src/curl++.cpp
lines 105-114): cookie.clear(); append "Set-Cookie: "; append the name;
push_back('='); append the value; push_back(';'). -/
def cookieLoopBody (c : Str × Str) : Str :=
  let cookie : Str := []
  let cookie := cookie ++ str "Set-Cookie: "
  let cookie := cookie ++ c.1
  let cookie := cookie ++ ['=']
  let cookie := cookie ++ c.2
  let cookie := cookie ++ [';']
  cookie

/-- easy::add_cookie(const std::map<std::string, std::string>&): entries is
the list of (name, value) pairs in map iteration order; oracle gives the
CURLcode curl_easy_setopt returns for each serialized line.  The code calls
curl_easy_setopt once per entry and discards its return value, so the
function always returns normally; the result collects the exact strings
passed to the underlying calls, in order. -/
def easy.add_cookie_map (_e : easy) (entries : List (Str × Str))
    (oracle : Str → Nat) : Except Str (List Str) :=
  Except.ok (entries.map (fun c =>
    let cookie := cookieLoopBody c
    let _code := oracle cookie
    cookie))

/-- easy::duplicate (src/curl++.cpp lines 117-120): returns
easy(curl_easy_duphandle(handle_)); dup is the oracle result of
curl_easy_duphandle. -/
def easy.duplicate (_e : easy) (dup : Nat) (file : Str) (line : Nat) :
    Except Str easy :=
  easy.fromHandle dup file line

/-- easy::operator == : handle_ == other.handle_. -/
def easy.eq (a b : easy) : Bool := decide (a.handle_ = b.handle_)

/-- easy::operator != : handle_ != other.handle_. -/
def easy.ne (a b : easy) : Bool := decide (¬ a.handle_ = b.handle_)

/-- easy::operator < : handle_ < other.handle_. -/
def easy.lt (a b : easy) : Bool := decide (a.handle_ < b.handle_)

/-- easy::operator > : handle_ > other.handle_. -/
def easy.gt (a b : easy) : Bool := decide (b.handle_ < a.handle_)

/-- easy::operator <= : handle_ <= other.handle_. -/
def easy.le (a b : easy) : Bool := decide (a.handle_ ≤ b.handle_)

/-- easy::operator >= : handle_ >= other.handle_. -/
def easy.ge (a b : easy) : Bool := decide (b.handle_ ≤ a.handle_)

/-! ### Write callbacks and recv_into (src/curl++.cpp lines 137-163, 196-201) -/

/-- One invocation of the write callback by libcurl: a data block ptr and
the size and nmemb arguments; libcurl delivers size*nmemb bytes at ptr. -/
structure Chunk where
  data : Str
  size : Nat
  nmemb : Nat
  deriving DecidableEq, Repr

/-- The size*nmemb bytes of the block that libcurl delivers to the callback. -/
def Chunk.delivered (c : Chunk) : Str := c.data.take (c.size * c.nmemb)

/-- easy::recv_into_writefunc_string_ (src/curl++.cpp lines 196-201):
buffer->append(ptr, size*nmemb); return size*nmemb.  Result: the new buffer
contents and the callback return value. -/
def easy.recv_into_writefunc_string_ (ptr : Str) (size nmemb : Nat)
    (buffer : Str) : Str × Nat :=
  (buffer ++ ptr.take (size * nmemb), size * nmemb)

/-- The buffer contents produced when a successful perform() delivers the
given chunks, in order, to recv_into_writefunc_string_ installed by
easy::recv_into(std::string&), starting from the given buffer contents. -/
def easy.recv_into_string (chunks : List Chunk) (buffer : Str) : Str :=
  chunks.foldl
    (fun b c => (easy.recv_into_writefunc_string_ c.data c.size c.nmemb b).1)
    buffer

/-- easy::get (src/curl++.cpp lines 137-142): constructs an empty
std::string buffer, calls recv_into(buffer) and returns the buffer. -/
def easy.get (chunks : List Chunk) : Str :=
  easy.recv_into_string chunks []

/-! ### curl::list (src/curl++.cpp lines 218-256) -/

/-- A curl_slist chain, modelled by the sequence of strings its nodes hold;
the null chain is []. -/
abbrev Slist := List Str

/-- curl_slist_append: allocates a node holding a copy of value at the tail
of the chain and returns the head of the resulting chain (a fresh head when
called on nullptr). -/
def curl_slist_append (l : Slist) (value : Str) : Slist := l ++ [value]

/-- The list wrapper object: its one data member is curl_slist * list_;
the default constructor sets list_ = nullptr, i.e. []. -/
structure list where
  list_ : Slist
  deriving DecidableEq, Repr

/-- list::append(const char *) (src/curl++.cpp lines 231-234):
list_ = curl_slist_append(list_, value) — the stored reference is replaced
by the return value of the underlying append call. -/
def list.append (l : list) (value : Str) : list :=
  ⟨curl_slist_append l.list_ value⟩

/-- list::operator * (src/curl++.cpp lines 253-256): returns list_. -/
def list.deref (l : list) : Slist := l.list_

/-! ### Helper lemmas -/

/-- The what() text of the code-carrying error constructor is the full
formatted text minus the final newline character. -/
theorem error_what_code_eq (stmt errstr file : Str) (line : Nat) :
    error_what_code stmt errstr file line =
      str "File: " ++ file ++ str " - Line: " ++ natChars line ++ str "\n"
        ++ stmt ++ str "\n----------\n" ++ errstr := by
  show ((str "File: " ++ file ++ str " - Line: " ++ natChars line ++ str "\n"
        ++ stmt ++ str "\n----------\n" ++ errstr) ++ ['\n']).dropLast = _
  exact List.dropLast_concat ..

/-- Folding the string write callback over delivered chunks appends their
concatenation to the buffer. -/
theorem recv_into_string_eq (chunks : List Chunk) (buffer : Str) :
    easy.recv_into_string chunks buffer
      = buffer ++ (chunks.map Chunk.delivered).flatten := by
  induction chunks generalizing buffer with
  | nil => simp [easy.recv_into_string]
  | cons c cs ih =>
      have hstep : easy.recv_into_string (c :: cs) buffer
          = easy.recv_into_string cs (buffer ++ c.delivered) := rfl
      rw [hstep, ih]
      simp [Chunk.delivered]

/-- Folding list::append over a sequence of values appends them, in order,
to the stored chain. -/
theorem list_foldl_append_eq (values : List Str) (init : list) :
    (values.foldl list.append init).list_ = init.list_ ++ values := by
  induction values generalizing init with
  | nil => simp
  | cons v vs ih =>
      have hstep : (v :: vs).foldl list.append init
          = vs.foldl list.append (list.append init v) := rfl
      rw [hstep, ih]
      simp [list.append, curl_slist_append]

/-! ### Claim theorems -/

/-- C1: evaluation of the move operations at a concrete moved-from handle.
The defaulted move constructor and move assignment copy handle_ and leave
the source holding the same non-null handle, so destroying the source after
the move releases that handle again: moving from an object holding handle 1
and then destroying both objects releases handle 1 twice.  This refutes the
claim that destruction of the moved-from source is a no-op. -/
theorem c1_move_leaves_source_owning :
    (easy.moveConstruct ⟨1⟩).2 = (⟨1⟩ : easy) ∧
    easy.destructorFrees (easy.moveConstruct ⟨1⟩).2 = [1] ∧
    easy.destructorFrees (easy.moveConstruct ⟨1⟩).1
      ++ easy.destructorFrees (easy.moveConstruct ⟨1⟩).2 = [1, 1] ∧
    easy.destructorFrees (easy.moveAssign ⟨2⟩ ⟨1⟩).2 = [1] := by
  decide

/-- C2: the mapping overload of add_cookie serializes every (name, value)
entry as the literal string "Set-Cookie: name=value;", makes exactly one
underlying curl_easy_setopt call per entry, and for the map holding the
single entry a maps-to 1 it makes exactly one call with the literal string
"Set-Cookie: a=1;". -/
theorem c2_add_cookie_map_serializes (e : easy) (entries : List (Str × Str))
    (oracle : Str → Nat) :
    easy.add_cookie_map e entries oracle =
      Except.ok (entries.map
        (fun c => str "Set-Cookie: " ++ c.1 ++ str "=" ++ c.2 ++ str ";")) ∧
    (entries.map cookieLoopBody).length = entries.length ∧
    easy.add_cookie_map e [(str "a", str "1")] oracle
      = Except.ok [str "Set-Cookie: a=1;"] := by
  refine ⟨?_, by simp, rfl⟩
  simp only [easy.add_cookie_map, cookieLoopBody]
  rfl

/-- C3: the mapping overload of add_cookie returns normally for every input
and every pattern of underlying setter results (failures are discarded),
while the single-cookie overload returns normally exactly on CURLE_OK and
throws a curl::error on every non-success code. -/
theorem c3_cookie_error_asymmetry (e : easy) (entries : List (Str × Str))
    (oracle : Str → Nat) :
    (∃ r, easy.add_cookie_map e entries oracle = Except.ok r) ∧
    ∀ (cookie : Str) (code : Nat) (errstr file : Str) (line : Nat),
      (code = CURLE_OK →
        easy.add_cookie e cookie code errstr file line = Except.ok ()) ∧
      (code ≠ CURLE_OK →
        ∃ m, easy.add_cookie e cookie code errstr file line
          = Except.error m) := by
  refine ⟨⟨_, rfl⟩, fun cookie code errstr file line => ⟨?_, ?_⟩⟩
  · intro h
    simp [easy.add_cookie, h]
  · intro h
    refine ⟨error_what_code
      (str "curl_easy_setopt(handle_, CURLOPT_COOKIELIST, cookie)")
      errstr file line, ?_⟩
    simp [easy.add_cookie, h]

/-- C3 witness: concrete instances — the mapping overload succeeds under an
always-failing setter oracle; the single-cookie overload succeeds on code 0
and errors on code 43. -/
theorem c3_witness :
    (∃ r, easy.add_cookie_map ⟨1⟩ [(str "a", str "1")] (fun _ => 43)
        = Except.ok r) ∧
    easy.add_cookie ⟨1⟩ (str "a=1") CURLE_OK (str "e") (str "f") 9
      = Except.ok () ∧
    (∃ m, easy.add_cookie ⟨1⟩ (str "a=1") 43 (str "e") (str "f") 9
        = Except.error m) :=
  ⟨(c3_cookie_error_asymmetry ⟨1⟩ [(str "a", str "1")] (fun _ => 43)).1,
   ((c3_cookie_error_asymmetry ⟨1⟩ [] (fun _ => 0)).2
      (str "a=1") CURLE_OK (str "e") (str "f") 9).1 rfl,
   ((c3_cookie_error_asymmetry ⟨1⟩ [] (fun _ => 0)).2
      (str "a=1") 43 (str "e") (str "f") 9).2 (by decide)⟩

/-- C4: constructing an easy object from a null native handle throws the
acquisition error; constructing from a non-null handle returns normally and
the constructed object stores exactly that handle. -/
theorem c4_ctor_null_check (handle : Nat) (file : Str) (line : Nat) :
    (handle = 0 → easy.fromHandle handle file line
      = Except.error (acquisitionErrorWhat file line)) ∧
    (handle ≠ 0 → easy.fromHandle handle file line = Except.ok ⟨handle⟩) := by
  constructor
  · intro h
    simp [easy.fromHandle, h]
  · intro h
    simp [easy.fromHandle, h]

/-- C4 witness: the constructor at handle 0 and at handle 7. -/
theorem c4_witness :
    easy.fromHandle 0 (str "curl++.cpp") 61
      = Except.error (acquisitionErrorWhat (str "curl++.cpp") 61) ∧
    easy.fromHandle 7 (str "curl++.cpp") 61 = Except.ok ⟨7⟩ :=
  ⟨(c4_ctor_null_check 0 (str "curl++.cpp") 61).1 rfl,
   (c4_ctor_null_check 7 (str "curl++.cpp") 61).2 (by decide)⟩

/-- C5: set returns its receiver unchanged exactly when the underlying
curl_easy_setopt call reports CURLE_OK, and on any other code it throws a
curl::error whose what() text contains the call-site file name and the
decimal rendering of the call-site line number. -/
theorem c5_set_silent_or_located_error (e : easy) (code : Nat)
    (stmt errstr file : Str) (line : Nat) :
    (easy.set e code stmt errstr file line = Except.ok e ↔ code = CURLE_OK) ∧
    (code ≠ CURLE_OK →
      ∃ m, easy.set e code stmt errstr file line = Except.error m ∧
        (∃ p s, m = p ++ file ++ s) ∧
        (∃ p₁ s₁, m = p₁ ++ natChars line ++ s₁)) := by
  constructor
  · constructor
    · intro h
      by_contra hc
      simp [easy.set, hc] at h
    · intro h
      simp [easy.set, h]
  · intro h
    refine ⟨error_what_code stmt errstr file line, by simp [easy.set, h],
      ⟨str "File: ",
       str " - Line: " ++ natChars line ++ str "\n" ++ stmt
         ++ str "\n----------\n" ++ errstr,
       by rw [error_what_code_eq]; simp [List.append_assoc]⟩,
      ⟨str "File: " ++ file ++ str " - Line: ",
       str "\n" ++ stmt ++ str "\n----------\n" ++ errstr,
       by rw [error_what_code_eq]; simp [List.append_assoc]⟩⟩

/-- C5 witness: set at code 0 succeeds silently; at code 6 it errors with a
message containing the file name and line number. -/
theorem c5_witness :
    (easy.set ⟨1⟩ 0 (str "s") (str "e") (str "f.cpp") 9 = Except.ok ⟨1⟩) ∧
    (∃ m, easy.set ⟨1⟩ 6 (str "s") (str "e") (str "f.cpp") 9
        = Except.error m ∧
      (∃ p s, m = p ++ str "f.cpp" ++ s) ∧
      (∃ p₁ s₁, m = p₁ ++ natChars 9 ++ s₁)) :=
  ⟨(c5_set_silent_or_located_error ⟨1⟩ 0 (str "s") (str "e")
      (str "f.cpp") 9).1.mpr rfl,
   (c5_set_silent_or_located_error ⟨1⟩ 6 (str "s") (str "e")
      (str "f.cpp") 9).2 (by decide)⟩

/-- C6: for a successful transfer, recv_into on a growable string buffer
accumulates exactly the concatenation, in arrival order, of the size*nmemb
byte blocks libcurl delivered to the installed write callback; get, which
starts from an empty buffer, returns exactly that concatenation; and the
callback reports every offered block as fully accepted by returning
size*nmemb. -/
theorem c6_recv_into_concatenates (chunks : List Chunk) (buffer : Str) :
    easy.recv_into_string chunks buffer
      = buffer ++ (chunks.map Chunk.delivered).flatten ∧
    easy.get chunks = (chunks.map Chunk.delivered).flatten ∧
    ∀ (c : Chunk) (b : Str),
      (easy.recv_into_writefunc_string_ c.data c.size c.nmemb b).2
        = c.size * c.nmemb :=
  ⟨recv_into_string_eq chunks buffer,
   by rw [easy.get, recv_into_string_eq]; rfl,
   fun _ _ => rfl⟩

/-- C7: each list::append stores exactly the chain returned by the
underlying curl_slist_append call, which extends the chain by one node at
the end; consequently, dereferencing after any sequence of appends yields
all appended entries in append order (after the initial contents), and a
default-constructed list yields exactly the appended sequence. -/
theorem c7_append_order (init : list) (values : List Str) :
    list.deref (values.foldl list.append init) = init.list_ ++ values ∧
    (∀ (l : list) (v : Str),
        (list.append l v).list_ = curl_slist_append l.list_ v ∧
        (list.append l v).list_ = l.list_ ++ [v]) ∧
    list.deref (values.foldl list.append ⟨[]⟩) = values :=
  ⟨list_foldl_append_eq values init,
   fun _ _ => ⟨rfl, rfl⟩,
   by rw [list.deref, list_foldl_append_eq]; rfl⟩

/-- C8: every comparison operator on easy decides exactly the corresponding
comparison of the stored native handles and nothing else: an object always
compares equal to itself, and two objects holding the distinct handles of
two independent acquisitions are never equal. -/
theorem c8_compare_handle_identity (a b : easy) :
    easy.eq a a = true ∧
    (a.handle_ ≠ b.handle_ → easy.eq a b = false ∧ easy.ne a b = true) ∧
    (easy.eq a b = true ↔ a.handle_ = b.handle_) ∧
    (easy.ne a b = true ↔ a.handle_ ≠ b.handle_) ∧
    (easy.lt a b = true ↔ a.handle_ < b.handle_) ∧
    (easy.gt a b = true ↔ b.handle_ < a.handle_) ∧
    (easy.le a b = true ↔ a.handle_ ≤ b.handle_) ∧
    (easy.ge a b = true ↔ b.handle_ ≤ a.handle_) := by
  refine ⟨by simp [easy.eq], fun h => ⟨by simp [easy.eq, h], by simp [easy.ne, h]⟩,
    ?_, ?_, ?_, ?_, ?_, ?_⟩ <;>
  simp [easy.eq, easy.ne, easy.lt, easy.gt, easy.le, easy.ge]

/-- C8 witness: two independently acquired handles 1 and 2 are unequal;
handle 1 equals itself. -/
theorem c8_witness :
    easy.eq ⟨1⟩ ⟨1⟩ = true ∧ easy.eq ⟨1⟩ ⟨2⟩ = false ∧ easy.ne ⟨1⟩ ⟨2⟩ = true :=
  ⟨(c8_compare_handle_identity ⟨1⟩ ⟨2⟩).1,
   ((c8_compare_handle_identity ⟨1⟩ ⟨2⟩).2.1 (by decide)).1,
   ((c8_compare_handle_identity ⟨1⟩ ⟨2⟩).2.1 (by decide)).2⟩

/-- C9: evaluation of the error constructors at concrete inputs.  The plain
form stores its message verbatim, but the file/line form and the code form
call snprintf with buffer-size argument size (not size+1), so the stored
what() text is the fully formatted message with its final character cut off
and is therefore not equal to the fully formatted message. -/
theorem c9_what_truncates_last_char :
    error_what_plain (str "msg") = str "msg" ∧
    error_what_file_line (str "msg") (str "file.cpp") 42
      = str "File: file.cpp - Line: 42\nmsg" ∧
    error_what_file_line (str "msg") (str "file.cpp") 42
      ≠ fmtFileLine (str "msg") (str "file.cpp") 42 ∧
    error_what_code (str "msg") (str "err") (str "file.cpp") 42
      ≠ fmtFileLineCode (str "msg") (str "err") (str "file.cpp") 42 := by
  decide

/-- C10: duplicate never returns a wrapper around a null handle: whenever it
returns normally, the new wrapper owns exactly the handle curl_easy_duphandle
produced and that handle is non-null; when curl_easy_duphandle returns null,
duplicate throws the acquisition error. -/
theorem c10_duplicate_never_null (e : easy) (dup : Nat) (file : Str)
    (line : Nat) :
    (∀ d, easy.duplicate e dup file line = Except.ok d →
      d.handle_ = dup ∧ dup ≠ 0) ∧
    (dup = 0 → easy.duplicate e dup file line
      = Except.error (acquisitionErrorWhat file line)) ∧
    (dup ≠ 0 → easy.duplicate e dup file line = Except.ok ⟨dup⟩) := by
  refine ⟨?_, ?_, ?_⟩
  · intro d h
    by_cases h0 : dup = 0
    · simp [easy.duplicate, easy.fromHandle, h0] at h
    · simp [easy.duplicate, easy.fromHandle, h0] at h
      exact ⟨by rw [← h], h0⟩
  · intro h0
    simp [easy.duplicate, easy.fromHandle, h0]
  · intro h0
    simp [easy.duplicate, easy.fromHandle, h0]

/-- C10 witness: duplicate at clone results 0 and 5. -/
theorem c10_witness :
    easy.duplicate ⟨1⟩ 0 (str "curl++.cpp") 119
      = Except.error (acquisitionErrorWhat (str "curl++.cpp") 119) ∧
    easy.duplicate ⟨1⟩ 5 (str "curl++.cpp") 119 = Except.ok ⟨5⟩ :=
  ⟨(c10_duplicate_never_null ⟨1⟩ 0 (str "curl++.cpp") 119).2.1 rfl,
   (c10_duplicate_never_null ⟨1⟩ 5 (str "curl++.cpp") 119).2.2 (by decide)⟩

end curl
